import Mathlib

/-!
Shallow embedding of the uptime-monitoring backend (`server.py`) and proofs
about its probe primitives, store-mutating API handlers, background-cycle
alert logic, uptime aggregation and dashboard statistics.

Modelling conventions:

* Machine time (UTC timestamps) is modelled as `Int` seconds; response times
  and percentages as `ℚ`.
* MongoDB collections are Lean lists; `update_one` / `delete_one` act on the
  first document matching the query (`updateFirst` / `removeFirst`),
  `delete_many` / `find` filter the whole list.
* Network and OS effects are modelled by per-probe outcome types (a received
  response, a timeout with its measured elapsed wall time, or another
  exception with its message); each probe function is the translation of the
  Python function's pure result logic over that outcome.
* Python truthiness of `Optional[float]` / `Optional[str]` values is made
  explicit (`none` or zero / empty string are falsy).
-/

namespace UptimeGuard

/-- The single-quote character, used to build Python-style quoted text in
diagnostic messages. -/
def sq : String := String.singleton (Char.ofNat 39)

/-- `MonitorStatus` enum from `server.py`. -/
inductive MonitorStatus
  | up
  | down
  | unknown
  | warning
deriving DecidableEq, Repr

/-- `MonitorType` enum from `server.py`. -/
inductive MonitorType
  | http
  | https
  | ssl
  | dns
  | port
  | ping
  | keyword
  | api
deriving DecidableEq, Repr

/-- The `Monitor` pydantic model (the fields the verified operations read or
write; remaining kind-specific configuration fields are carried by the probe
calls directly). -/
structure Monitor where
  id : String
  name : String
  monitor_type : MonitorType
  check_interval : Int
  timeout : Int
  status : MonitorStatus
  last_checked : Option Int
  response_time : Option ℚ
  uptime_percentage : ℚ
  created_at : Int
  ssl_expires_at : Option Int := none
  ping_packet_loss : Option ℚ := none
  keyword_found : Option Bool := none
  actual_status_code : Option Nat := none
  json_validation_result : Option Bool := none
deriving DecidableEq, Repr

/-- The `UptimeLog` pydantic model. -/
structure UptimeLog where
  id : String
  monitor_id : String
  timestamp : Int
  status : MonitorStatus
  response_time : Option ℚ := none
  error_message : Option String := none
  ssl_expires_at : Option Int := none
  ssl_days_until_expiry : Option Int := none
  dns_resolution_time : Option ℚ := none
  dns_result : Option String := none
  port_open : Option Bool := none
  ping_packet_loss : Option ℚ := none
  ping_min_time : Option ℚ := none
  ping_max_time : Option ℚ := none
  ping_avg_time : Option ℚ := none
  keyword_found : Option Bool := none
  keyword_match_count : Option Int := none
  api_status_code : Option Nat := none
  api_response_size : Option Nat := none
  json_validation_passed : Option Bool := none
deriving DecidableEq, Repr

/-- The `AlertSettings` pydantic model. -/
structure AlertSettings where
  id : String
  monitor_id : String
  email_enabled : Bool
  email_address : String
  alert_on_down : Bool
  alert_on_up : Bool
  created_at : Int
deriving DecidableEq, Repr

/-- The `AlertSettingsCreate` request body (`email_enabled` is not part of the
request; `AlertSettings(**alert_data.dict())` leaves it at its default
`True`). -/
structure AlertSettingsCreate where
  monitor_id : String
  email_address : String
  alert_on_down : Bool := true
  alert_on_up : Bool := true
deriving DecidableEq, Repr

/-- The `DashboardStats` response model. -/
structure DashboardStats where
  total_monitors : Nat
  monitors_up : Nat
  monitors_down : Nat
  overall_uptime : ℚ
deriving DecidableEq, Repr

/-- The MongoDB database state: the three collections used by the verified
handlers, plus the trace of emails handed to `send_alert_email`
(recipient address and rendered subject line). -/
structure DBState where
  monitors : List Monitor
  uptime_logs : List UptimeLog
  alert_settings : List AlertSettings
  emails : List (String × String)
deriving DecidableEq, Repr

/-- The empty database. -/
def emptyState : DBState := ⟨[], [], [], []⟩

/-- Mongo `delete_one`: remove the first element matching the query. -/
def removeFirst (p : α → Bool) : List α → List α
  | [] => []
  | a :: t => if p a then t else a :: removeFirst p t

/-- Mongo `update_one` with `$set`: rewrite the first element matching the
query. -/
def updateFirst (p : α → Bool) (f : α → α) : List α → List α
  | [] => []
  | a :: t => if p a then f a :: t else a :: updateFirst p f t

/-- `DELETE /api/monitors/{monitor_id}` (`delete_monitor`): `delete_one` on
the monitors collection; 404 when nothing was deleted; otherwise
`delete_many` the monitor's uptime logs. Alert settings are not touched by
this handler. -/
def delete_monitor (s : DBState) (monitor_id : String) :
    Except Nat String × DBState :=
  if s.monitors.any (fun m => m.id == monitor_id) then
    (.ok "Monitor deleted successfully",
     { s with
        monitors := removeFirst (fun m => m.id == monitor_id) s.monitors,
        uptime_logs := s.uptime_logs.filter (fun l => !(l.monitor_id == monitor_id)) })
  else (.error 404, s)

/-- `POST /api/monitors` (`create_monitor`): inserts the new monitor document.
The per-kind required-field validation (which raises 400 before any store
write and never touches alert settings) is elided; the store effect of a
successful call is the single insert. -/
def create_monitor (s : DBState) (m : Monitor) : Except Nat Monitor × DBState :=
  (.ok m, { s with monitors := s.monitors ++ [m] })

/-- `POST /api/alerts` (`create_alert_settings`): 404 when the monitor does
not exist, 400 when alert settings already exist for the monitor, otherwise
insert a new `AlertSettings` built from the request (with `email_enabled`
defaulting to true) under a fresh id. -/
def create_alert_settings (s : DBState) (d : AlertSettingsCreate)
    (newId : String) (now : Int) : Except Nat AlertSettings × DBState :=
  if !(s.monitors.any (fun m => m.id == d.monitor_id)) then
    (.error 404, s)
  else if s.alert_settings.any (fun a => a.monitor_id == d.monitor_id) then
    (.error 400, s)
  else
    let a : AlertSettings :=
      ⟨newId, d.monitor_id, true, d.email_address, d.alert_on_down, d.alert_on_up, now⟩
    (.ok a, { s with alert_settings := s.alert_settings ++ [a] })

/-- `DELETE /api/alerts/{monitor_id}` (`delete_alert_settings`): `delete_one`
by monitor id; 404 when nothing was deleted. -/
def delete_alert_settings (s : DBState) (monitor_id : String) :
    Except Nat String × DBState :=
  if s.alert_settings.any (fun a => a.monitor_id == monitor_id) then
    (.ok "Alert settings deleted successfully",
     { s with alert_settings := removeFirst (fun a => a.monitor_id == monitor_id) s.alert_settings })
  else (.error 404, s)

/-- The logs the `update_uptime_percentage` query returns: logs of the given
monitor whose timestamp is at or after `now` minus 24 hours. -/
def windowLogs (s : DBState) (monitor_id : String) (now : Int) : List UptimeLog :=
  s.uptime_logs.filter
    (fun l => l.monitor_id == monitor_id && decide (now - 24 * 3600 ≤ l.timestamp))

/-- `update_uptime_percentage`: with no logs in the last 24 hours, return
without writing; otherwise write `up_count / total_count * 100` to the
monitor's `uptime_percentage`. -/
def update_uptime_percentage (s : DBState) (monitor_id : String) (now : Int) :
    DBState :=
  let logs := windowLogs s monitor_id now
  if logs.isEmpty then s
  else
    let up_count : Nat := logs.countP (fun l => l.status == .up)
    let total_count : Nat := logs.length
    let uptime_percentage : ℚ := ((up_count : ℚ) / (total_count : ℚ)) * 100
    { s with
        monitors := updateFirst (fun m => m.id == monitor_id)
          (fun m => { m with uptime_percentage := uptime_percentage }) s.monitors }

/-- `GET /api/dashboard/stats` (`get_dashboard_stats`): counts of monitors
whose status is exactly `up` resp. exactly `down`, and the mean of
`uptime_percentage` over all monitors (0.0 with no monitors). -/
def get_dashboard_stats (monitors : List Monitor) : DashboardStats :=
  { total_monitors := monitors.length
    monitors_up := monitors.countP (fun m => m.status == .up)
    monitors_down := monitors.countP (fun m => m.status == .down)
    overall_uptime :=
      if monitors.length > 0 then
        (monitors.map (fun m => m.uptime_percentage)).sum / (monitors.length : ℚ)
      else 0 }

/-- Outcome of the single GET performed by `check_url`: a response with its
HTTP status and measured elapsed wall time, an `asyncio.TimeoutError` with
the elapsed time measured at the moment the exception was caught, or any
other exception with its message and elapsed time. -/
inductive HttpOutcome
  | response (status : Nat) (elapsed : ℚ)
  | timeout (elapsed : ℚ)
  | otherError (msg : String) (elapsed : ℚ)
deriving DecidableEq, Repr

/-- A `(status, response_time, error_message)` probe result tuple. -/
structure ProbeResult where
  status : MonitorStatus
  response_time : Option ℚ
  error_message : Option String
deriving DecidableEq, Repr

/-- `check_url`: UP on a 200 response, DOWN with message `HTTP <code>`
otherwise, DOWN "Timeout" on `asyncio.TimeoutError`, DOWN with the exception
text on any other exception. The `timeout` argument only configures the
client session's deadline; it does not enter the returned tuple. -/
def check_url (timeout : Int) (o : HttpOutcome) : ProbeResult :=
  match o with
  | .response st elapsed =>
      if st = 200 then ⟨.up, some elapsed, none⟩
      else ⟨.down, some elapsed, some ("HTTP " ++ toString st)⟩
  | .timeout elapsed => ⟨.down, some elapsed, some "Timeout"⟩
  | .otherError msg elapsed => ⟨.down, some elapsed, some msg⟩

/-- Outcome of the TLS connection in `check_ssl_certificate`: a completed
handshake carrying the elapsed time, the certificate's `notAfter` instant and
`days_until_expiry = (notAfter - utcnow()).days` (Python timedelta days,
floored), a `socket.timeout`, or any other exception. -/
inductive SslOutcome
  | handshake (elapsed : ℚ) (notAfter : Int) (days_until_expiry : Int)
  | sockTimeout (elapsed : ℚ)
  | otherError (msg : String) (elapsed : ℚ)
deriving DecidableEq, Repr

/-- The `(status, response_time, error, expiry_date, days_until_expiry)`
result tuple of `check_ssl_certificate`. -/
structure SslResult where
  status : MonitorStatus
  response_time : Option ℚ
  error_message : Option String
  expiry_date : Option Int
  days_until_expiry : Option Int
deriving DecidableEq, Repr

/-- `check_ssl_certificate`: after a successful handshake, DOWN
"Certificate expired N days ago" when days-until-expiry is negative (N its
absolute value), WARNING "Certificate expires in N days" when it is at most
the expiry threshold, UP beyond the threshold; expiry date and
days-until-expiry are returned in all three cases. `socket.timeout` yields
DOWN "Connection timeout" and any other exception DOWN with its text, both
with empty payload. -/
def check_ssl_certificate (timeout : Int) (expiry_threshold : Int)
    (o : SslOutcome) : SslResult :=
  match o with
  | .handshake elapsed notAfter d =>
      if d < 0 then
        ⟨.down, some elapsed,
          some ("Certificate expired " ++ toString d.natAbs ++ " days ago"),
          some notAfter, some d⟩
      else if d ≤ expiry_threshold then
        ⟨.warning, some elapsed,
          some ("Certificate expires in " ++ toString d ++ " days"),
          some notAfter, some d⟩
      else
        ⟨.up, some elapsed, none, some notAfter, some d⟩
  | .sockTimeout elapsed =>
      ⟨.down, some elapsed, some "Connection timeout", none, none⟩
  | .otherError msg elapsed =>
      ⟨.down, some elapsed, some msg, none, none⟩

/-- JSON values as produced by `json.loads`. -/
inductive Json
  | null
  | bool (b : Bool)
  | num (n : Int)
  | str (s : String)
  | arr (elems : List Json)
  | obj (fields : List (String × Json))

mutual

/-- Python `repr` of a decoded JSON value (used by `str` on containers). -/
def pyRepr : Json → String
  | .null => "None"
  | .bool true => "True"
  | .bool false => "False"
  | .num n => toString n
  | .str s => sq ++ s ++ sq
  | .arr elems => "[" ++ String.intercalate ", " (pyReprList elems) ++ "]"
  | .obj fields =>
      "\x7b" ++ String.intercalate ", " (pyReprFields fields) ++ "\x7d"

/-- `repr` of each element of a JSON array. -/
def pyReprList : List Json → List String
  | [] => []
  | v :: vs => pyRepr v :: pyReprList vs

/-- `repr` of each `key: value` entry of a JSON object. -/
def pyReprFields : List (String × Json) → List String
  | [] => []
  | kv :: kvs => (sq ++ kv.1 ++ sq ++ ": " ++ pyRepr kv.2) :: pyReprFields kvs

end

/-- Python `str` of a decoded JSON value: strings print bare, every other
value prints as its `repr`. -/
def pyStr : Json → String
  | .str s => s
  | v => pyRepr v

/-- One step `value = value[key]` with a string key: a dict lookup succeeds
when the key is present and raises `KeyError` otherwise; indexing any
non-dict value with a string raises `TypeError`. Both exception types are
caught by `check_api_endpoint`. -/
def jsonLookup (v : Json) (key : String) : Except String Json :=
  match v with
  | .obj fields =>
      match fields.find? (fun kv => kv.1 == key) with
      | some kv => .ok kv.2
      | none => .error (sq ++ key ++ sq)
  | _ => .error "string indices must be integers"

/-- Python `str.split` over a character list, with a single-character
separator (character code 46, the full stop): splitting the empty string
yields `[""]`, and every separator occurrence starts a new segment. -/
def splitCharsOnDot : List Char → List String
  | [] => [""]
  | c :: cs =>
      let rest := splitCharsOnDot cs
      if c = Char.ofNat 46 then "" :: rest
      else
        match rest with
        | r :: rs => (String.singleton c ++ r) :: rs
        | [] => [String.singleton c]

/-- `json_path.split` at the dot separator, as in `check_api_endpoint`. -/
def splitOnDot (s : String) : List String := splitCharsOnDot s.data

/-- The `for key in keys: value = value[key]` loop of `check_api_endpoint`. -/
def navigatePath (keys : List String) (v : Json) : Except String Json :=
  match keys with
  | [] => .ok v
  | k :: ks =>
      match jsonLookup v k with
      | .ok v1 => navigatePath ks v1
      | .error e => .error e

/-- The validation parameters of `check_api_endpoint` (defaults as in the
Python signature). -/
structure ApiParams where
  expected_status_code : Nat := 200
  expected_response_time : Option ℚ := none
  json_path : Option String := none
  expected_json_value : Option String := none
deriving DecidableEq, Repr

/-- Outcome of the request performed by `check_api_endpoint`: a response
carrying its status code, measured elapsed time, the result of
`json.loads(response_text)` (a JSON value or the decode-error text) and the
UTF-8 byte size of the body, an `asyncio.TimeoutError`, or any other
exception. -/
inductive ApiOutcome
  | response (status : Nat) (elapsed : ℚ) (bodyParse : Except String Json)
      (bodySize : Nat)
  | timeout (elapsed : ℚ)
  | otherError (msg : String) (elapsed : ℚ)

/-- The `(status, response_time, error, status_code, json_validation_passed,
response_size)` result tuple of `check_api_endpoint`. -/
structure ApiResult where
  status : MonitorStatus
  response_time : Option ℚ
  error_message : Option String
  status_code : Nat
  json_validation_passed : Bool
  response_size : Option Nat
deriving DecidableEq, Repr

/-- Python truthiness of an `Optional[float]`: `None` and `0.0` are falsy. -/
def truthyFloat : Option ℚ → Bool
  | some t => t != 0
  | none => false

/-- Python truthiness of an `Optional[str]`: `None` and the empty string are
falsy. -/
def truthyStr : Option String → Bool
  | some s => s != ""
  | none => false

/-- Third stage of `check_api_endpoint` (the `if json_path and
expected_json_value:` block followed by the final UP return): parse failure
and lookup failure yield DOWN `JSON validation error: ...`; a stringified
terminal value different from `expected_json_value` yields DOWN
`JSON validation failed: ...`; otherwise UP with
`json_validation_passed = true` (the flag is initialised true and only
cleared in the failure branches, so a skipped check also reports true). -/
def apiJsonStage (p : ApiParams) (st : Nat) (elapsed : ℚ)
    (bodyParse : Except String Json) (size : Nat) : ApiResult :=
  match p.json_path, p.expected_json_value with
  | some jp, some ev =>
      if jp != "" && ev != "" then
        match bodyParse with
        | .error e =>
            ⟨.down, some elapsed, some ("JSON validation error: " ++ e),
              st, false, some size⟩
        | .ok j =>
            match navigatePath (splitOnDot jp) j with
            | .error e =>
                ⟨.down, some elapsed, some ("JSON validation error: " ++ e),
                  st, false, some size⟩
            | .ok v =>
                if pyStr v != ev then
                  ⟨.down, some elapsed,
                    some ("JSON validation failed: expected " ++ sq ++ ev ++ sq ++
                      ", got " ++ sq ++ pyStr v ++ sq),
                    st, false, some size⟩
                else ⟨.up, some elapsed, none, st, true, some size⟩
      else ⟨.up, some elapsed, none, st, true, some size⟩
  | _, _ => ⟨.up, some elapsed, none, st, true, some size⟩

/-- Second stage of `check_api_endpoint` (`if expected_response_time and
response_time > expected_response_time:`): WARNING when the limit is set,
nonzero (Python truthiness) and exceeded; the numeric formatting of the
diagnostic abstracts the Python `:.2f` rendering. -/
def apiTimeStage (p : ApiParams) (st : Nat) (elapsed : ℚ)
    (bodyParse : Except String Json) (size : Nat) : ApiResult :=
  match p.expected_response_time with
  | some limit =>
      if limit != 0 && decide (limit < elapsed) then
        ⟨.warning, some elapsed,
          some ("Response time " ++ toString elapsed ++ "s exceeds limit " ++
            toString limit ++ "s"),
          st, false, some size⟩
      else apiJsonStage p st elapsed bodyParse size
  | none => apiJsonStage p st elapsed bodyParse size

/-- `check_api_endpoint`: DOWN on a status-code mismatch, then the
response-time stage, then the JSON-validation stage; `asyncio.TimeoutError`
yields DOWN "Timeout" and any other exception DOWN with its text, both with
status code 0, validation false and no size. -/
def check_api_endpoint (p : ApiParams) (timeout : Int) (o : ApiOutcome) :
    ApiResult :=
  match o with
  | .response st elapsed bodyParse size =>
      if st ≠ p.expected_status_code then
        ⟨.down, some elapsed,
          some ("Expected status " ++ toString p.expected_status_code ++
            ", got " ++ toString st),
          st, false, some size⟩
      else apiTimeStage p st elapsed bodyParse size
  | .timeout elapsed => ⟨.down, some elapsed, some "Timeout", 0, false, none⟩
  | .otherError msg elapsed => ⟨.down, some elapsed, some msg, 0, false, none⟩

/-- Whether the first character list starts with the second-argument-free
needle (Python substring matching helper). -/
def listStartsWith : List Char → List Char → Bool
  | [], _ => true
  | _ :: _, [] => false
  | a :: as, b :: bs => a == b && listStartsWith as bs

/-- Python `needle in haystack` on strings: the needle occurs as a
contiguous substring (the empty needle always occurs). -/
def strContains (needle hay : String) : Bool :=
  go needle.data hay.data
where
  /-- Scan the haystack left to right for a prefix match. -/
  go (n : List Char) : List Char → Bool
    | [] => n.isEmpty
    | c :: cs => listStartsWith n (c :: cs) || go n cs

/-- Python `str.count`: number of non-overlapping occurrences, scanning left
to right and skipping the needle's length after each match; an empty needle
counts `len + 1`. -/
def pyCount (needle hay : String) : Nat :=
  if needle.data.isEmpty then hay.data.length + 1
  else go needle.data hay.data 0
where
  /-- `skip` counts characters still covered by the previous match. -/
  go (n : List Char) : List Char → Nat → Nat
    | [], _ => 0
    | _ :: cs, Nat.succ k => go n cs k
    | c :: cs, 0 =>
        if listStartsWith n (c :: cs) then 1 + go n cs (n.length - 1)
        else go n cs 0

/-- Whether a character is ASCII whitespace, as stripped by Python
`str.strip` (space, tab, newline, carriage return, form feed, vertical
tab). -/
def isPySpace (c : Char) : Bool :=
  c.toNat == 32 || c.toNat == 9 || c.toNat == 10 || c.toNat == 13 ||
  c.toNat == 12 || c.toNat == 11

/-- Python `str.strip` (ASCII whitespace). -/
def pyStrip (s : String) : String :=
  ⟨((s.data.dropWhile isPySpace).reverse.dropWhile isPySpace).reverse⟩

/-- Python `str.lower` on the ASCII protocol strings. -/
def pyLower (s : String) : String := ⟨s.data.map Char.toLower⟩

/-- Outcome of the resolver call in `check_dns_resolution`: an answer list
(each answer already rendered by `str`), `dns.resolver.NXDOMAIN`,
`dns.resolver.Timeout`, or any other exception. -/
inductive DnsOutcome
  | resolved (elapsed : ℚ) (answers : List String)
  | nxdomain (elapsed : ℚ)
  | dnsTimeout (elapsed : ℚ)
  | otherError (msg : String) (elapsed : ℚ)
deriving DecidableEq, Repr

/-- The `(status, response_time, error, resolved_result)` tuple of
`check_dns_resolution`. -/
structure DnsResult where
  status : MonitorStatus
  response_time : Option ℚ
  error_message : Option String
  dns_result : Option String
deriving DecidableEq, Repr

/-- `check_dns_resolution`: join the answers with ", "; when
`expected_result` is truthy (set and non-empty), UP iff it occurs as a
substring of the joined result, else DOWN with the expected/got diagnostic;
without an expected result, resolution success is UP. NXDOMAIN gives DOWN
"Domain does not exist", a resolver timeout DOWN "DNS resolution timeout",
any other exception DOWN with its text, all with empty payload. -/
def check_dns_resolution (expected_result : Option String) (timeout : Int)
    (o : DnsOutcome) : DnsResult :=
  match o with
  | .resolved elapsed answers =>
      let resolved_result := String.intercalate ", " answers
      match expected_result with
      | some exp =>
          if exp != "" then
            if strContains exp resolved_result then
              ⟨.up, some elapsed, none, some resolved_result⟩
            else
              ⟨.down, some elapsed,
                some ("Expected " ++ sq ++ exp ++ sq ++ " but got " ++ sq ++
                  resolved_result ++ sq),
                some resolved_result⟩
          else ⟨.up, some elapsed, none, some resolved_result⟩
      | none => ⟨.up, some elapsed, none, some resolved_result⟩
  | .nxdomain elapsed => ⟨.down, some elapsed, some "Domain does not exist", none⟩
  | .dnsTimeout elapsed => ⟨.down, some elapsed, some "DNS resolution timeout", none⟩
  | .otherError msg elapsed => ⟨.down, some elapsed, some msg, none⟩

/-- Outcome of the GET performed by `check_keyword`: a response with status,
elapsed time, body text and — for the `regex` match type — the number of
`re.findall(keyword, content)` matches (the external regex engine is an
oracle of the outcome; the field is read only in the regex branch), an
`asyncio.TimeoutError`, or any other exception. -/
inductive KeywordOutcome
  | response (status : Nat) (elapsed : ℚ) (content : String) (regexMatches : Nat)
  | timeout (elapsed : ℚ)
  | otherError (msg : String) (elapsed : ℚ)

/-- The `(status, response_time, error, found, match_count)` tuple of
`check_keyword`. -/
structure KeywordResult where
  status : MonitorStatus
  response_time : Option ℚ
  error_message : Option String
  found : Bool
  match_count : Nat
deriving DecidableEq, Repr

/-- `check_keyword`: on a 200 response, `contains` tests substring presence
and counts occurrences, `exact` compares the keyword to the stripped body,
`regex` uses the findall match count; any other match type leaves
`found = False, match_count = 0`. Found gives UP, not found DOWN
`Keyword '...' not found`, non-200 DOWN `HTTP <code>`; a timeout gives DOWN
"Timeout" and any other exception DOWN with its text, with found false and
count 0. -/
def check_keyword (keyword match_type : String) (timeout : Int)
    (o : KeywordOutcome) : KeywordResult :=
  match o with
  | .response st elapsed content regexMatches =>
      if st = 200 then
        let fc : Bool × Nat :=
          if match_type == "contains" then
            (strContains keyword content, pyCount keyword content)
          else if match_type == "exact" then
            let f := keyword == pyStrip content
            (f, if f then 1 else 0)
          else if match_type == "regex" then
            (decide (0 < regexMatches), regexMatches)
          else (false, 0)
        if fc.1 then ⟨.up, some elapsed, none, true, fc.2⟩
        else
          ⟨.down, some elapsed,
            some ("Keyword " ++ sq ++ keyword ++ sq ++ " not found"),
            false, fc.2⟩
      else ⟨.down, some elapsed, some ("HTTP " ++ toString st), false, 0⟩
  | .timeout elapsed => ⟨.down, some elapsed, some "Timeout", false, 0⟩
  | .otherError msg elapsed => ⟨.down, some elapsed, some msg, false, 0⟩

/-- Outcome of the connection attempt in `check_port_connectivity`: success,
or an exception with its `str` text. The TCP path's deadline overrun raises
`asyncio.TimeoutError` out of `asyncio.wait_for`, caught by the generic
`except Exception as e` handler — and `str(asyncio.TimeoutError())` is the
empty string, so that case is `errored "" elapsed`. -/
inductive PortOutcome
  | connected (elapsed : ℚ)
  | errored (msg : String) (elapsed : ℚ)
deriving DecidableEq, Repr

/-- The `(status, response_time, error, port_open)` tuple of
`check_port_connectivity`. -/
structure PortResult where
  status : MonitorStatus
  response_time : Option ℚ
  error_message : Option String
  port_open : Bool
deriving DecidableEq, Repr

/-- `check_port_connectivity`: for `tcp` and `udp` (after lowering), a
successful connect is UP with `port_open = True` and any exception is DOWN
with the exception text and `port_open = False`; any other protocol is DOWN
`Unsupported protocol: <protocol>` without attempting a connection (the
carried elapsed time is the measurement taken at that return). -/
def check_port_connectivity (protocol : String) (timeout : Int)
    (o : PortOutcome) : PortResult :=
  if pyLower protocol == "tcp" then
    match o with
    | .connected elapsed => ⟨.up, some elapsed, none, true⟩
    | .errored msg elapsed => ⟨.down, some elapsed, some msg, false⟩
  else if pyLower protocol == "udp" then
    match o with
    | .connected elapsed => ⟨.up, some elapsed, none, true⟩
    | .errored msg elapsed => ⟨.down, some elapsed, some msg, false⟩
  else
    match o with
    | .connected elapsed =>
        ⟨.down, some elapsed, some ("Unsupported protocol: " ++ protocol), false⟩
    | .errored _ elapsed =>
        ⟨.down, some elapsed, some ("Unsupported protocol: " ++ protocol), false⟩

/-- Outcome of the `ping` subprocess in `check_ping`: exit code 0 with the
values parsed from stdout (`packet_loss` defaults to 0.0 when no
packet-loss line matches; `times` is the min/avg/max round trip in
milliseconds, absent when no rtt line matches), a nonzero exit code with
the stderr text, or any exception. `check_ping` enforces no Python-level
deadline: the timeout is handed to the ping command as its `-W` flag, so a
deadline overrun surfaces as a nonzero exit code or as packet loss. -/
inductive PingOutcome
  | completed (packet_loss : ℚ) (times : Option (ℚ × ℚ × ℚ))
  | failed (stderr : String)
  | otherError (msg : String)
deriving DecidableEq, Repr

/-- The `(status, response_time, error, packet_loss, min, max, avg)` tuple
of `check_ping`. -/
structure PingResult where
  status : MonitorStatus
  response_time : Option ℚ
  error_message : Option String
  packet_loss : Option ℚ
  min_time : Option ℚ
  max_time : Option ℚ
  avg_time : Option ℚ
deriving DecidableEq, Repr

/-- The `x/1000 if x else None` millisecond-to-second conversion of
`check_ping` (Python truthiness: a 0.0 measurement yields None). -/
def pingScale (t : ℚ) : Option ℚ := if t != 0 then some (t / 1000) else none

/-- `check_ping`: with loss below 100%, UP at zero loss and WARNING
otherwise, with the parsed times scaled to seconds (each through the
`if x else None` truthiness); 100% loss gives DOWN "100% packet loss" with
the loss in the payload; a nonzero exit code gives DOWN
`Ping failed: <stderr>` and any exception DOWN with its text, with empty
payload. -/
def check_ping (o : PingOutcome) : PingResult :=
  match o with
  | .completed packet_loss times =>
      if packet_loss < 100 then
        let status := if packet_loss = 0 then MonitorStatus.up else .warning
        match times with
        | some (min_time, avg_time, max_time) =>
            ⟨status, pingScale avg_time, none, some packet_loss,
              pingScale min_time, pingScale max_time, pingScale avg_time⟩
        | none => ⟨status, none, none, some packet_loss, none, none, none⟩
      else ⟨.down, none, some "100% packet loss", some packet_loss, none, none, none⟩
  | .failed stderr => ⟨.down, none, some ("Ping failed: " ++ stderr), none, none, none, none⟩
  | .otherError msg => ⟨.down, none, some msg, none, none, none, none⟩

/-- The subject line rendered by `send_alert_email`: the function branches
on `status == MonitorStatus.DOWN`; every other status takes the
`else:  # Status UP (Recovery)` branch. -/
def alertSubject (monitor_name : String) (status : MonitorStatus) : String :=
  if status == .down then
    "🔴 ALERT: " ++ monitor_name ++ " is DOWN - Moracity Monitoring"
  else
    "🟢 RECOVERY: " ++ monitor_name ++ " is back UP - Moracity Monitoring"

/-- The `should_alert` expression of `monitor_check_cycle`. -/
def should_alert (status : MonitorStatus) (alert : AlertSettings) : Bool :=
  (status == .down && alert.alert_on_down) ||
  (status == .up && alert.alert_on_up) ||
  (status == .warning && alert.alert_on_down)

/-- The alert block of `monitor_check_cycle` (lines after the uptime update):
when the status changed and the previous status is not `unknown`, for every
alert setting of the monitor with `should_alert` and `email_enabled`, one
email is sent to its address, with the subject rendered by
`send_alert_email` from the new status. Returns the `(address, subject)`
pairs sent. -/
def cycleAlerts (monitor_name : String)
    (previous_status status : MonitorStatus)
    (settings : List AlertSettings) : List (String × String) :=
  if previous_status != status && previous_status != .unknown then
    (settings.filter (fun a => should_alert status a && a.email_enabled)).map
      (fun a => (a.email_address, alertSubject monitor_name status))
  else []

/-- The kind-specific keys a check adds to `update_data` before the common
`$set` (a `none` field models a key that the probe did not add). -/
structure UpdateData where
  ssl_expires_at : Option Int := none
  ping_packet_loss : Option ℚ := none
  keyword_found : Option Bool := none
  actual_status_code : Option Nat := none
  json_validation_result : Option Bool := none
deriving DecidableEq, Repr

/-- The kind-specific keys a check adds to `log_data`. -/
structure LogPayload where
  ssl_expires_at : Option Int := none
  ssl_days_until_expiry : Option Int := none
  dns_resolution_time : Option ℚ := none
  dns_result : Option String := none
  port_open : Option Bool := none
  ping_packet_loss : Option ℚ := none
  ping_min_time : Option ℚ := none
  ping_max_time : Option ℚ := none
  ping_avg_time : Option ℚ := none
  keyword_found : Option Bool := none
  keyword_match_count : Option Int := none
  api_status_code : Option Nat := none
  api_response_size : Option Nat := none
  json_validation_passed : Option Bool := none
deriving DecidableEq, Repr

/-- The `$set` of `update_data` on a monitor document: `last_checked`,
`status` and `response_time` are always set; a kind-specific field is set
only when its key was added to `update_data`. -/
def applyUpdate (m : Monitor) (now : Int) (status : MonitorStatus)
    (response_time : Option ℚ) (u : UpdateData) : Monitor :=
  { m with
      last_checked := some now
      status := status
      response_time := response_time
      ssl_expires_at :=
        match u.ssl_expires_at with
        | some v => some v
        | none => m.ssl_expires_at
      ping_packet_loss :=
        match u.ping_packet_loss with
        | some v => some v
        | none => m.ping_packet_loss
      keyword_found :=
        match u.keyword_found with
        | some v => some v
        | none => m.keyword_found
      actual_status_code :=
        match u.actual_status_code with
        | some v => some v
        | none => m.actual_status_code
      json_validation_result :=
        match u.json_validation_result with
        | some v => some v
        | none => m.json_validation_result }

/-- The `UptimeLog(**log_dict)` document inserted after a check. -/
def mkLog (logId monitor_id : String) (now : Int) (status : MonitorStatus)
    (response_time : Option ℚ) (error_message : Option String)
    (pl : LogPayload) : UptimeLog :=
  { id := logId
    monitor_id := monitor_id
    timestamp := now
    status := status
    response_time := response_time
    error_message := error_message
    ssl_expires_at := pl.ssl_expires_at
    ssl_days_until_expiry := pl.ssl_days_until_expiry
    dns_resolution_time := pl.dns_resolution_time
    dns_result := pl.dns_result
    port_open := pl.port_open
    ping_packet_loss := pl.ping_packet_loss
    ping_min_time := pl.ping_min_time
    ping_max_time := pl.ping_max_time
    ping_avg_time := pl.ping_avg_time
    keyword_found := pl.keyword_found
    keyword_match_count := pl.keyword_match_count
    api_status_code := pl.api_status_code
    api_response_size := pl.api_response_size
    json_validation_passed := pl.json_validation_passed }

/-- `POST /api/monitors/{monitor_id}/check` (`manual_check_monitor`), given
the dispatched probe's outcome (`status`, `response_time`, `error_msg`,
`update_data`, `log_data`): 404 when the monitor does not exist; otherwise
`update_one` the monitor with the `$set` of `update_data`, insert exactly one
`UptimeLog`, and return the probe outcome. This handler neither recomputes
`uptime_percentage` nor sends alert emails. -/
def manual_check_monitor (s : DBState) (monitor_id : String) (now : Int)
    (status : MonitorStatus) (response_time : Option ℚ)
    (error_msg : Option String) (u : UpdateData) (pl : LogPayload)
    (logId : String) :
    Except Nat (MonitorStatus × Option ℚ × Option String × LogPayload) × DBState :=
  match s.monitors.find? (fun m => m.id == monitor_id) with
  | none => (.error 404, s)
  | some _ =>
      let s1 := { s with
        monitors := updateFirst (fun m => m.id == monitor_id)
          (fun m => applyUpdate m now status response_time u) s.monitors }
      let s2 := { s1 with
        uptime_logs := s1.uptime_logs ++
          [mkLog logId monitor_id now status response_time error_msg pl] }
      (.ok (status, response_time, error_msg, pl), s2)

/-- One monitor's pass through the body of `monitor_check_cycle`, given the
dispatched probe's outcome: snapshot `previous_status`, `update_one` the
monitor, insert one `UptimeLog`, recompute the uptime percentage, then send
the qualifying alert emails. A monitor id not in the store leaves the state
unchanged. -/
def background_check_step (s : DBState) (monitor_id : String) (now : Int)
    (status : MonitorStatus) (response_time : Option ℚ)
    (error_msg : Option String) (u : UpdateData) (pl : LogPayload)
    (logId : String) : DBState :=
  match s.monitors.find? (fun m => m.id == monitor_id) with
  | none => s
  | some m =>
      let previous_status := m.status
      let s1 := { s with
        monitors := updateFirst (fun x => x.id == monitor_id)
          (fun x => applyUpdate x now status response_time u) s.monitors }
      let s2 := { s1 with
        uptime_logs := s1.uptime_logs ++
          [mkLog logId monitor_id now status response_time error_msg pl] }
      let s3 := update_uptime_percentage s2 monitor_id now
      { s3 with
          emails := s3.emails ++
            cycleAlerts m.name previous_status status
              (s3.alert_settings.filter (fun a => a.monitor_id == monitor_id)) }

/-- One store-mutating call of the management API. -/
inductive ApiCall
  | createMonitor (m : Monitor)
  | deleteMonitor (monitor_id : String)
  | manualCheck (monitor_id : String) (now : Int) (status : MonitorStatus)
      (response_time : Option ℚ) (error_msg : Option String) (u : UpdateData)
      (pl : LogPayload) (logId : String)
  | createAlert (d : AlertSettingsCreate) (newId : String) (now : Int)
  | deleteAlert (monitor_id : String)

/-- The store effect of one API call (the GET endpoints do not mutate). -/
def applyApi (s : DBState) : ApiCall → DBState
  | .createMonitor m => (create_monitor s m).2
  | .deleteMonitor mid => (delete_monitor s mid).2
  | .manualCheck mid now st rt err u pl lid =>
      (manual_check_monitor s mid now st rt err u pl lid).2
  | .createAlert d nid now => (create_alert_settings s d nid now).2
  | .deleteAlert mid => (delete_alert_settings s mid).2

/-- Invariant I4: at most one `AlertSettings` record per monitor id. -/
def alertInvariant (s : DBState) : Prop :=
  ∀ mid : String,
    s.alert_settings.countP (fun a => a.monitor_id == mid) ≤ 1

section ListLemmas

variable {α β : Type _}

theorem countP_removeFirst_le (p q : α → Bool) (l : List α) :
    (removeFirst p l).countP q ≤ l.countP q := by
  induction l with
  | nil => simp [removeFirst]
  | cons a t ih =>
      by_cases h : p a
      · simp only [removeFirst, if_pos h, List.countP_cons]
        omega
      · simp only [removeFirst, if_neg h, List.countP_cons]
        omega

theorem countP_eq_zero_of_any_eq_false (p : α → Bool) (l : List α)
    (h : l.any p = false) : l.countP p = 0 := by
  induction l with
  | nil => simp
  | cons a t ih =>
      simp only [List.any_cons, Bool.or_eq_false_iff] at h
      simp [List.countP_cons, h.1, ih h.2]

theorem find?_updateFirst (p : α → Bool) (f : α → α) (l : List α) (x : α)
    (h : l.find? p = some x) (hf : p (f x) = true) :
    (updateFirst p f l).find? p = some (f x) := by
  induction l with
  | nil => simp [List.find?] at h
  | cons a t ih =>
      by_cases hpa : p a
      · rw [List.find?_cons_of_pos _ hpa] at h
        obtain rfl : a = x := by injection h
        simp [updateFirst, if_pos hpa, List.find?_cons_of_pos _ hf]
      · rw [List.find?_cons_of_neg _ hpa] at h
        have hpa' : p a = false := by simpa using hpa
        simp [updateFirst, if_neg hpa, List.find?_cons_of_neg _ hpa, ih h]

theorem map_updateFirst (p : α → Bool) (f : α → α) (g : α → β) (l : List α)
    (h : ∀ a, g (f a) = g a) : (updateFirst p f l).map g = l.map g := by
  induction l with
  | nil => rfl
  | cons a t ih =>
      by_cases hpa : p a
      · simp [updateFirst, if_pos hpa, h]
      · simp [updateFirst, if_neg hpa, ih]

end ListLemmas

theorem applyApi_preserves_alertInvariant (s : DBState) (c : ApiCall)
    (h : alertInvariant s) : alertInvariant (applyApi s c) := by
  intro mid
  cases c with
  | createMonitor m => simpa [applyApi, create_monitor] using h mid
  | deleteMonitor i =>
      cases hx : s.monitors.any (fun m => m.id == i) with
      | true => simpa [applyApi, delete_monitor, hx] using h mid
      | false => simpa [applyApi, delete_monitor, hx] using h mid
  | manualCheck i now st rt err u pl lid =>
      cases hf : s.monitors.find? (fun m => m.id == i) with
      | none => simpa [applyApi, manual_check_monitor, hf] using h mid
      | some m => simpa [applyApi, manual_check_monitor, hf] using h mid
  | createAlert d nid now =>
      cases h1 : s.monitors.any (fun m => m.id == d.monitor_id) with
      | false => simpa [applyApi, create_alert_settings, h1] using h mid
      | true =>
          cases h2 : s.alert_settings.any (fun a => a.monitor_id == d.monitor_id) with
          | true => simpa [applyApi, create_alert_settings, h1, h2] using h mid
          | false =>
              have h0 := countP_eq_zero_of_any_eq_false
                (fun a => a.monitor_id == d.monitor_id) s.alert_settings h2
              simp only [applyApi, create_alert_settings, h1, h2,
                Bool.not_true, Bool.false_eq_true, if_false, if_true,
                Bool.not_false, DBState.alert_settings, List.countP_append,
                List.countP_cons, List.countP_nil]
              by_cases hm : d.monitor_id = mid
              · subst hm
                simp only [h0]
                simp
              · have hq : (((⟨nid, d.monitor_id, true, d.email_address,
                    d.alert_on_down, d.alert_on_up, now⟩ : AlertSettings).monitor_id
                      == mid) : Bool) = false := by
                  simp [hm]
                simp only [hq, if_false]
                simpa using h mid
  | deleteAlert i =>
      cases hx : s.alert_settings.any (fun a => a.monitor_id == i) with
      | false => simpa [applyApi, delete_alert_settings, hx] using h mid
      | true =>
          simp only [applyApi, delete_alert_settings, hx, if_true]
          exact le_trans
            (countP_removeFirst_le (fun a => a.monitor_id == i)
              (fun a => a.monitor_id == mid) s.alert_settings)
            (h mid)

theorem foldl_applyApi_preserves_alertInvariant :
    ∀ (calls : List ApiCall) (s : DBState), alertInvariant s →
      alertInvariant (calls.foldl applyApi s) := by
  intro calls
  induction calls with
  | nil => intro s h; simpa using h
  | cons c t ih =>
      intro s h
      simpa [List.foldl_cons] using
        ih (applyApi s c) (applyApi_preserves_alertInvariant s c h)

/-- A sample HTTPS monitor used to evaluate the handlers. -/
def sampleMonitor : Monitor :=
  { id := "m1", name := "web", monitor_type := .https, check_interval := 300,
    timeout := 10, status := .up, last_checked := none, response_time := none,
    uptime_percentage := 0, created_at := 0 }

/-- A sample uptime log of `sampleMonitor`. -/
def sampleLog : UptimeLog := { id := "l0", monitor_id := "m1", timestamp := 0, status := .up }

/-- Sample alert settings of `sampleMonitor`. -/
def sampleAlert : AlertSettings := ⟨"a1", "m1", true, "ops@example.com", true, true, 0⟩

/-- A sample store holding one monitor with one log and one alert setting. -/
def sampleState : DBState := ⟨[sampleMonitor], [sampleLog], [sampleAlert], []⟩

/-- C1 counterexample: deleting monitor `m1` from a store that holds an
`AlertSettings` record for `m1` succeeds but leaves that record in the
store, so it is not the case that no AlertSettings with the deleted
monitor's ID remain. -/
theorem c1_counterexample :
    (delete_monitor sampleState "m1").1 = .ok "Monitor deleted successfully" ∧
    (delete_monitor sampleState "m1").2.alert_settings = [sampleAlert] ∧
    sampleAlert.monitor_id = "m1" :=
  ⟨rfl, rfl, rfl⟩

/-- C1 (amended): after a successful DELETE /api/monitors/(id), no UptimeLog
records with that monitor ID remain, and the AlertSettings collection is
left exactly as it was (the handler does not cascade to alert settings). -/
theorem c1_delete_cascade_amended (s : DBState) (mid : String)
    (h : s.monitors.any (fun m => m.id == mid) = true) :
    (delete_monitor s mid).1 = .ok "Monitor deleted successfully" ∧
    (∀ l ∈ (delete_monitor s mid).2.uptime_logs, l.monitor_id ≠ mid) ∧
    (delete_monitor s mid).2.alert_settings = s.alert_settings := by
  refine ⟨?_, ?_, ?_⟩
  · simp [delete_monitor, h]
  · intro l hl
    simp only [delete_monitor, h, if_true, List.mem_filter] at hl
    simpa using hl.2
  · simp [delete_monitor, h]

/-- C1 witness: the amended theorem applied to the sample store. -/
theorem c1_witness :
    (delete_monitor sampleState "m1").2.alert_settings =
      sampleState.alert_settings ∧
    ∀ l ∈ (delete_monitor sampleState "m1").2.uptime_logs,
      l.monitor_id ≠ "m1" := by
  have h := c1_delete_cascade_amended sampleState "m1" (by decide)
  exact ⟨h.2.2, h.2.1⟩

/-- The store used to exhibit the C2 divergence: monitor `m1` is currently
`up` and has alert settings with `alert_on_down := true`,
`alert_on_up := false`, `email_enabled := true`. -/
def c2State : DBState :=
  ⟨[sampleMonitor], [], [⟨"a1", "m1", true, "ops@example.com", true, false, 0⟩], []⟩

/-- C2: code divergence. On the background-cycle transition up → warning
with `alert_on_down` true, the code does send one alert email to the
subscriber — but `send_alert_email` renders it with the RECOVERY template
(subject says the monitor "is back UP"), because the renderer branches only
on `status == DOWN`. The claim requires a DOWN email here and allows a
RECOVERY email only on (down|warning) → up. -/
theorem c2_warning_transition_sends_recovery_email :
    (background_check_step c2State "m1" 5 .warning (some 1)
        (some "Certificate expires in 10 days") {} {} "l1").emails =
      [("ops@example.com", "🟢 RECOVERY: web is back UP - Moracity Monitoring")] ∧
    alertSubject "web" .warning = alertSubject "web" .up := by
  constructor
  · rfl
  · rfl

/-- C6: for every HTTP(S) probe that receives a response, the result is UP
iff the status is exactly 200, and otherwise DOWN with error message
`HTTP <code>`. -/
theorem c6_http_status (t : Int) (st : Nat) (e : ℚ) :
    ((check_url t (.response st e)).status = .up ↔ st = 200) ∧
    (st = 200 → check_url t (.response st e) = ⟨.up, some e, none⟩) ∧
    (st ≠ 200 →
      check_url t (.response st e) =
        ⟨.down, some e, some ("HTTP " ++ toString st)⟩) := by
  refine ⟨?_, ?_, ?_⟩
  · by_cases h : st = 200 <;> simp [check_url, h]
  · intro h; simp [check_url, h]
  · intro h; simp [check_url, h]

/-- C6 witness: the theorem applied at a 200 and at a 404 response. -/
theorem c6_witness :
    check_url 10 (.response 200 (1/10)) = ⟨.up, some (1/10), none⟩ ∧
    check_url 10 (.response 404 (1/10)) =
      ⟨.down, some (1/10), some ("HTTP " ++ toString 404)⟩ :=
  ⟨(c6_http_status 10 200 (1/10)).2.1 rfl,
   (c6_http_status 10 404 (1/10)).2.2 (by decide)⟩

/-- C7 counterexample: on a timeout the HTTP probe returns the measured
elapsed wall time (here 10.5s, not the 10s deadline) and the message
`Timeout`, not the literal `timeout` required by the claim. -/
theorem c7_counterexample :
    check_url 10 (.timeout (21/2)) = ⟨.down, some (21/2), some "Timeout"⟩ ∧
    (21 : ℚ) / 2 ≠ (10 : ℚ) ∧
    "Timeout" ≠ "timeout" :=
  ⟨rfl, by norm_num, by decide⟩

/-- C7 (amended): every probe primitive absorbs target and transport
failures into its status-with-message result (every exception outcome
yields a DOWN tuple, never an escaping exception). On exceeding its
deadline a probe returns DOWN with the measured elapsed wall time (not the
deadline value) and its probe-specific timeout message: `Timeout` for the
HTTP, keyword and API probes, `Connection timeout` for the SSL probe,
`DNS resolution timeout` for the DNS probe; the TCP port probe's deadline
overrun is caught by its generic exception handler, whose message — the
`str` of `asyncio.TimeoutError()` — is the empty string, with payload
`port_open = false`; the ping probe enforces no Python-level deadline (the
timeout is delegated to the ping command), its failures surfacing as DOWN
`Ping failed: <stderr>` or the exception text. The kind-specific payload of
these failure results is empty, except that the API probe reports status
code 0 and validation false, and the keyword probe found = false with
count 0. -/
theorem c7_probe_absorption_amended (t thr : Int) (e : ℚ)
    (msg err kw mt proto : String) (p : ApiParams) (exp : Option String) :
    check_url t (.timeout e) = ⟨.down, some e, some "Timeout"⟩ ∧
    (check_url t (.otherError msg e)).status = .down ∧
    check_ssl_certificate t thr (.sockTimeout e) =
      ⟨.down, some e, some "Connection timeout", none, none⟩ ∧
    (check_ssl_certificate t thr (.otherError msg e)).status = .down ∧
    check_dns_resolution exp t (.dnsTimeout e) =
      ⟨.down, some e, some "DNS resolution timeout", none⟩ ∧
    check_dns_resolution exp t (.nxdomain e) =
      ⟨.down, some e, some "Domain does not exist", none⟩ ∧
    (check_dns_resolution exp t (.otherError msg e)).status = .down ∧
    check_keyword kw mt t (.timeout e) =
      ⟨.down, some e, some "Timeout", false, 0⟩ ∧
    (check_keyword kw mt t (.otherError msg e)).status = .down ∧
    check_api_endpoint p t (.timeout e) =
      ⟨.down, some e, some "Timeout", 0, false, none⟩ ∧
    (check_api_endpoint p t (.otherError msg e)).status = .down ∧
    check_port_connectivity "tcp" t (.errored "" e) =
      ⟨.down, some e, some "", false⟩ ∧
    (check_port_connectivity proto t (.errored msg e)).status = .down ∧
    check_ping (.failed err) =
      ⟨.down, none, some ("Ping failed: " ++ err), none, none, none, none⟩ ∧
    (check_ping (.otherError msg)).status = .down := by
  refine ⟨rfl, rfl, rfl, rfl, rfl, rfl, rfl, rfl, rfl, rfl, rfl, rfl, ?_, rfl, rfl⟩
  unfold check_port_connectivity
  split_ifs <;> rfl

/-- C3: the uptime aggregator leaves the store unchanged when the monitor
has no logs in the last 24 hours; otherwise it sets the monitor's
`uptime_percentage` to (number of UP logs) / (total logs) × 100 over that
window — a `warning` log is counted as not-up — and it never touches the
log or alert collections. -/
theorem c3_uptime_percentage (s : DBState) (mid : String) (now : Int) :
    (windowLogs s mid now = [] → update_uptime_percentage s mid now = s) ∧
    (∀ m, s.monitors.find? (fun x => x.id == mid) = some m →
      windowLogs s mid now ≠ [] →
      (update_uptime_percentage s mid now).monitors.find?
          (fun x => x.id == mid) =
        some { m with uptime_percentage :=
          (((windowLogs s mid now).countP (fun l => l.status == .up) : ℚ) /
            ((windowLogs s mid now).length : ℚ)) * 100 }) ∧
    (update_uptime_percentage s mid now).uptime_logs = s.uptime_logs ∧
    (update_uptime_percentage s mid now).alert_settings = s.alert_settings := by
  refine ⟨?_, ?_, ?_, ?_⟩
  · intro h
    simp [update_uptime_percentage, h]
  · intro m hm hne
    have hE : (windowLogs s mid now).isEmpty = false := by
      cases hW : windowLogs s mid now with
      | nil => exact absurd hW hne
      | cons a t => simp
    have hp : (({ m with uptime_percentage :=
        (((windowLogs s mid now).countP (fun l => l.status == .up) : ℚ) /
          ((windowLogs s mid now).length : ℚ)) * 100 } : Monitor).id == mid) = true := by
      simpa using List.find?_some hm
    simp only [update_uptime_percentage, hE, Bool.false_eq_true, if_false]
    exact find?_updateFirst _ _ _ _ hm hp
  · simp only [update_uptime_percentage]
    split <;> rfl
  · simp only [update_uptime_percentage]
    split <;> rfl

/-- C3 witness: the theorem applied to the sample store (one UP log in the
window, so uptime_percentage becomes 100) and, for the empty-window branch,
to the empty store. -/
theorem c3_witness :
    (update_uptime_percentage sampleState "m1" 100).monitors.find?
        (fun x => x.id == "m1") =
      some { sampleMonitor with uptime_percentage :=
        (((windowLogs sampleState "m1" 100).countP (fun l => l.status == .up) : ℚ) /
          ((windowLogs sampleState "m1" 100).length : ℚ)) * 100 } ∧
    update_uptime_percentage emptyState "m1" 0 = emptyState :=
  ⟨(c3_uptime_percentage sampleState "m1" 100).2.1 sampleMonitor rfl (by decide),
   (c3_uptime_percentage emptyState "m1" 0).1 rfl⟩

/-- C4: for every successful TLS handshake, with `d` days until expiry and
threshold `thr`: `d < 0` gives DOWN "Certificate expired N days ago" with
N = |d|; `0 ≤ d ≤ thr` gives WARNING "Certificate expires in N days" with
N = d; `thr < d` gives UP; the expiry date and `d` are in the payload in
all three cases. -/
theorem c4_ssl_expiry (t thr : Int) (elapsed : ℚ) (notAfter d : Int) :
    (d < 0 →
      check_ssl_certificate t thr (.handshake elapsed notAfter d) =
        ⟨.down, some elapsed,
          some ("Certificate expired " ++ toString d.natAbs ++ " days ago"),
          some notAfter, some d⟩) ∧
    (0 ≤ d → d ≤ thr →
      check_ssl_certificate t thr (.handshake elapsed notAfter d) =
        ⟨.warning, some elapsed,
          some ("Certificate expires in " ++ toString d ++ " days"),
          some notAfter, some d⟩) ∧
    (0 ≤ d → thr < d →
      check_ssl_certificate t thr (.handshake elapsed notAfter d) =
        ⟨.up, some elapsed, none, some notAfter, some d⟩) := by
  refine ⟨?_, ?_, ?_⟩
  · intro h
    simp [check_ssl_certificate, h]
  · intro h0 h1
    simp [check_ssl_certificate, not_lt.mpr h0, h1]
  · intro hd h
    have h0 : ¬ d < 0 := by omega
    have h1 : ¬ d ≤ thr := by omega
    simp [check_ssl_certificate, h0, h1]

/-- C4 witness: the theorem applied with threshold 30 at d = -5 (expired),
d = 10 (warning) and d = 45 (up). -/
theorem c4_witness :
    check_ssl_certificate 10 30 (.handshake 1 800000 (-5)) =
      ⟨.down, some 1,
        some ("Certificate expired " ++ toString (Int.natAbs (-5)) ++ " days ago"),
        some 800000, some (-5)⟩ ∧
    check_ssl_certificate 10 30 (.handshake 1 800000 10) =
      ⟨.warning, some 1,
        some ("Certificate expires in " ++ toString (10 : Int) ++ " days"),
        some 800000, some 10⟩ ∧
    check_ssl_certificate 10 30 (.handshake 1 800000 45) =
      ⟨.up, some 1, none, some 800000, some 45⟩ :=
  ⟨(c4_ssl_expiry 10 30 1 800000 (-5)).1 (by decide),
   (c4_ssl_expiry 10 30 1 800000 10).2.1 (by decide) (by decide),
   (c4_ssl_expiry 10 30 1 800000 45).2.2 (by decide) (by decide)⟩

/-- C9: a manual check on an existing monitor returns the probe outcome,
updates that monitor via `applyUpdate` (status, response_time,
last_checked and the kind-specific fields), appends exactly one UptimeLog,
and leaves the email trace, the alert settings and every monitor's
`uptime_percentage` unchanged. -/
theorem c9_manual_check_frame (s : DBState) (mid : String) (now : Int)
    (st : MonitorStatus) (rt : Option ℚ) (err : Option String)
    (u : UpdateData) (pl : LogPayload) (lid : String) (m : Monitor)
    (h : s.monitors.find? (fun x => x.id == mid) = some m) :
    (manual_check_monitor s mid now st rt err u pl lid).1 =
      .ok (st, rt, err, pl) ∧
    (manual_check_monitor s mid now st rt err u pl lid).2.uptime_logs =
      s.uptime_logs ++ [mkLog lid mid now st rt err pl] ∧
    (manual_check_monitor s mid now st rt err u pl lid).2.emails = s.emails ∧
    (manual_check_monitor s mid now st rt err u pl lid).2.alert_settings =
      s.alert_settings ∧
    (manual_check_monitor s mid now st rt err u pl lid).2.monitors.map
        Monitor.uptime_percentage =
      s.monitors.map Monitor.uptime_percentage ∧
    (manual_check_monitor s mid now st rt err u pl lid).2.monitors.find?
        (fun x => x.id == mid) = some (applyUpdate m now st rt u) := by
  have hp : ((applyUpdate m now st rt u).id == mid) = true := by
    simpa [applyUpdate] using List.find?_some h
  refine ⟨?_, ?_, ?_, ?_, ?_, ?_⟩
  · simp [manual_check_monitor, h]
  · simp [manual_check_monitor, h]
  · simp [manual_check_monitor, h]
  · simp [manual_check_monitor, h]
  · simp only [manual_check_monitor, h]
    exact map_updateFirst _ _ _ _ (fun a => rfl)
  · simp only [manual_check_monitor, h]
    exact find?_updateFirst _ _ _ _ h hp

/-- C9 witness: a manual check on the sample store (transition up → down)
inserts one log and leaves emails, alert settings and the uptime
percentages untouched. -/
theorem c9_witness :
    (manual_check_monitor sampleState "m1" 50 .down (some 2) (some "HTTP 500")
        {} {} "l9").2.uptime_logs =
      sampleState.uptime_logs ++
        [mkLog "l9" "m1" 50 .down (some 2) (some "HTTP 500") {}] ∧
    (manual_check_monitor sampleState "m1" 50 .down (some 2) (some "HTTP 500")
        {} {} "l9").2.emails = sampleState.emails ∧
    (manual_check_monitor sampleState "m1" 50 .down (some 2) (some "HTTP 500")
        {} {} "l9").2.monitors.map Monitor.uptime_percentage =
      sampleState.monitors.map Monitor.uptime_percentage := by
  have h := c9_manual_check_frame sampleState "m1" 50 .down (some 2)
    (some "HTTP 500") {} {} "l9" sampleMonitor rfl
  exact ⟨h.2.1, h.2.2.1, h.2.2.2.2.1⟩

/-- C5 counterexample: with `expected_response_time` set to 0.0 (a set but
Python-falsy value) and elapsed time 0.5 > 0.0, the probe returns UP, not
the WARNING the claim requires for "expected_response_time set and
elapsed > expected_response_time". -/
theorem c5_counterexample :
    check_api_endpoint
        { expected_status_code := 200, expected_response_time := some 0,
          json_path := none, expected_json_value := none } 10
        (.response 200 (1/2) (.ok .null) 4) =
      ⟨.up, some (1/2), none, 200, true, some 4⟩ ∧
    (0 : ℚ) < 1/2 :=
  ⟨rfl, by norm_num⟩

/-- The response-time stage falls through to the JSON stage whenever its
guard does not fire (limit unset or zero, or elapsed within the limit). -/
theorem apiTimeStage_no_fire (p : ApiParams) (st : Nat) (e : ℚ)
    (bp : Except String Json) (n : Nat)
    (h : truthyFloat p.expected_response_time = false ∨
      ∀ limit, p.expected_response_time = some limit → e ≤ limit) :
    apiTimeStage p st e bp n = apiJsonStage p st e bp n := by
  cases hert : p.expected_response_time with
  | none => simp [apiTimeStage, hert]
  | some limit =>
      have hguard : (limit != 0 && decide (limit < e)) = false := by
        rcases h with h | h
        · rw [hert] at h
          simp only [truthyFloat] at h
          simp [h]
        · have := h limit hert
          simp [not_lt.mpr this]
      simp [apiTimeStage, hert, hguard]

/-- C5 (amended): the API-endpoint probe evaluates its checks in order,
short-circuiting on the first failure: (1) status code mismatch → DOWN with
the expected/actual diagnostic; (2) WARNING when `expected_response_time`
is set to a nonzero value (Python truthiness) and exceeded; (3) when
`json_path` and `expected_json_value` are both set to non-empty strings,
the parsed body is navigated along the dot-separated path by successive
object lookups, the terminal value is stringified and compared string-equal
— parse failure, lookup failure and mismatch each give DOWN, a match gives
UP with `json_validation_passed`; (4) otherwise UP. -/
theorem c5_api_order_amended (p : ApiParams) (t : Int) (st : Nat) (e : ℚ)
    (bp : Except String Json) (n : Nat) :
    (st ≠ p.expected_status_code →
      check_api_endpoint p t (.response st e bp n) =
        ⟨.down, some e,
          some ("Expected status " ++ toString p.expected_status_code ++
            ", got " ++ toString st),
          st, false, some n⟩) ∧
    (∀ limit, st = p.expected_status_code →
      p.expected_response_time = some limit → limit ≠ 0 → limit < e →
      (check_api_endpoint p t (.response st e bp n)).status = .warning) ∧
    (st = p.expected_status_code →
      (truthyFloat p.expected_response_time = false ∨
        ∀ limit, p.expected_response_time = some limit → e ≤ limit) →
      ∀ jp ev, p.json_path = some jp → p.expected_json_value = some ev →
        jp ≠ "" → ev ≠ "" →
        ((∀ msg, bp = .error msg →
            (check_api_endpoint p t (.response st e bp n)).status = .down) ∧
         (∀ j msg, bp = .ok j →
            navigatePath (splitOnDot jp) j = .error msg →
            (check_api_endpoint p t (.response st e bp n)).status = .down) ∧
         (∀ j v, bp = .ok j → navigatePath (splitOnDot jp) j = .ok v →
            pyStr v ≠ ev →
            (check_api_endpoint p t (.response st e bp n)).status = .down) ∧
         (∀ j v, bp = .ok j → navigatePath (splitOnDot jp) j = .ok v →
            pyStr v = ev →
            check_api_endpoint p t (.response st e bp n) =
              ⟨.up, some e, none, st, true, some n⟩))) ∧
    (st = p.expected_status_code →
      (truthyFloat p.expected_response_time = false ∨
        ∀ limit, p.expected_response_time = some limit → e ≤ limit) →
      (truthyStr p.json_path = false ∨ truthyStr p.expected_json_value = false) →
      check_api_endpoint p t (.response st e bp n) =
        ⟨.up, some e, none, st, true, some n⟩) := by
  refine ⟨?_, ?_, ?_, ?_⟩
  · intro h
    simp [check_api_endpoint, h]
  · intro limit hst hert hne hlt
    have hguard : (limit != 0 && decide (limit < e)) = true := by
      simp [hne, hlt]
    simp [check_api_endpoint, hst, apiTimeStage, hert, hguard]
  · intro hst hnofire jp ev hjp hev hjpne hevne
    have hpass : check_api_endpoint p t (.response st e bp n) =
        apiJsonStage p st e bp n := by
      rw [check_api_endpoint]
      rw [if_neg (by simp [hst])]
      exact apiTimeStage_no_fire p st e bp n hnofire
    have hguard : (jp != "" && ev != "") = true := by
      simp [hjpne, hevne]
    refine ⟨?_, ?_, ?_, ?_⟩
    · intro msg hbp
      rw [hpass]
      simp [apiJsonStage, hjp, hev, hguard, hbp]
    · intro j msg hbp hnav
      rw [hpass]
      simp [apiJsonStage, hjp, hev, hguard, hbp, hnav]
    · intro j v hbp hnav hne
      rw [hpass]
      have : (pyStr v != ev) = true := by simp [hne]
      simp [apiJsonStage, hjp, hev, hguard, hbp, hnav, this]
    · intro j v hbp hnav heq
      rw [hpass]
      have : (pyStr v != ev) = false := by simp [heq]
      simp [apiJsonStage, hjp, hev, hguard, hbp, hnav, this]
  · intro hst hnofire hjson
    have hpass : check_api_endpoint p t (.response st e bp n) =
        apiJsonStage p st e bp n := by
      rw [check_api_endpoint]
      rw [if_neg (by simp [hst])]
      exact apiTimeStage_no_fire p st e bp n hnofire
    rw [hpass]
    cases hjp : p.json_path with
    | none => simp [apiJsonStage, hjp]
    | some jp =>
        cases hev : p.expected_json_value with
        | none => simp [apiJsonStage, hjp, hev]
        | some ev =>
            have hguard : (jp != "" && ev != "") = false := by
              rcases hjson with h | h
              · rw [hjp] at h
                simp only [truthyStr] at h
                simp [h]
              · rw [hev] at h
                simp only [truthyStr] at h
                simp [h]
            simp [apiJsonStage, hjp, hev, hguard]

/-- C5 witness: the amended theorem applied at a status mismatch
(500 vs 200) and at scenario S5's JSON mismatch (`data.status` is "bad",
expected "ok"). -/
theorem c5_witness :
    check_api_endpoint { expected_status_code := 200 } 10
        (.response 500 1 (.ok .null) 4) =
      ⟨.down, some 1,
        some ("Expected status " ++ toString 200 ++ ", got " ++ toString 500),
        500, false, some 4⟩ ∧
    (check_api_endpoint
        { expected_status_code := 200, json_path := some "data.status",
          expected_json_value := some "ok" } 10
        (.response 200 1
          (.ok (.obj [("data", .obj [("status", .str "bad")])])) 4)).status =
      .down := by
  refine ⟨(c5_api_order_amended _ 10 500 1 (.ok .null) 4).1 (by decide), ?_⟩
  have h := (c5_api_order_amended
      { expected_status_code := 200, json_path := some "data.status",
        expected_json_value := some "ok" } 10 200 1
      (.ok (.obj [("data", .obj [("status", .str "bad")])])) 4).2.2.1
    rfl (Or.inl rfl) "data.status" "ok" rfl rfl (by decide) (by decide)
  exact h.2.2.1 (.obj [("data", .obj [("status", .str "bad")])])
    (.str "bad") rfl (by rfl) (by decide)

/-- C8: POST /api/alerts fails with 404 when the monitor does not exist and
with 400 when alert settings already exist for the monitor, leaving the
store unchanged in both cases; and after any sequence of store-mutating API
calls starting from the empty store, at most one AlertSettings record
exists per monitor ID. -/
theorem c8_alert_uniqueness :
    (∀ (s : DBState) (d : AlertSettingsCreate) (nid : String) (now : Int),
      (s.monitors.any (fun m => m.id == d.monitor_id) = false →
        create_alert_settings s d nid now = (.error 404, s)) ∧
      (s.monitors.any (fun m => m.id == d.monitor_id) = true →
        s.alert_settings.any (fun a => a.monitor_id == d.monitor_id) = true →
        create_alert_settings s d nid now = (.error 400, s))) ∧
    ∀ (calls : List ApiCall),
      alertInvariant (calls.foldl applyApi emptyState) := by
  constructor
  · intro s d nid now
    constructor
    · intro h
      simp [create_alert_settings, h]
    · intro h1 h2
      simp [create_alert_settings, h1, h2]
  · intro calls
    exact foldl_applyApi_preserves_alertInvariant calls emptyState
      (fun mid => by simp [emptyState])

/-- C8 witness: the 404 case at the sample store with an unknown monitor id,
the 400 case at the sample store (which already holds alert settings for
`m1`), and the invariant after a concrete call sequence that creates a
monitor and twice attempts to create alert settings for it. -/
theorem c8_witness :
    create_alert_settings sampleState ⟨"m2", "a@b", true, true⟩ "n1" 0 =
      (.error 404, sampleState) ∧
    create_alert_settings sampleState ⟨"m1", "a@b", true, true⟩ "n1" 0 =
      (.error 400, sampleState) ∧
    ([ApiCall.createMonitor sampleMonitor,
      ApiCall.createAlert ⟨"m1", "a@b", true, true⟩ "n1" 0,
      ApiCall.createAlert ⟨"m1", "c@d", true, true⟩ "n2" 1].foldl applyApi
        emptyState).alert_settings.countP
      (fun a => a.monitor_id == "m1") ≤ 1 := by
  refine ⟨(c8_alert_uniqueness.1 sampleState ⟨"m2", "a@b", true, true⟩ "n1" 0).1
      (by decide),
    (c8_alert_uniqueness.1 sampleState ⟨"m1", "a@b", true, true⟩ "n1" 0).2
      (by decide) (by decide),
    c8_alert_uniqueness.2
      [ApiCall.createMonitor sampleMonitor,
       ApiCall.createAlert ⟨"m1", "a@b", true, true⟩ "n1" 0,
       ApiCall.createAlert ⟨"m1", "c@d", true, true⟩ "n2" 1] "m1"⟩

/-- Every monitor's status is counted in exactly one of the three buckets
up / down / warning-or-unknown. -/
theorem monitor_status_partition (ms : List Monitor) :
    ms.countP (fun m => m.status == .up) +
      ms.countP (fun m => m.status == .down) +
      ms.countP (fun m => m.status == .warning || m.status == .unknown) =
    ms.length := by
  induction ms with
  | nil => simp
  | cons m t ih =>
      simp only [List.countP_cons, List.length_cons]
      cases h : m.status <;> simp [h] <;> omega

/-- C10: the dashboard counts in `monitors_up` exactly the monitors whose
status is `up` and in `monitors_down` exactly those whose status is `down`;
monitors in `warning` or `unknown` fall in neither count, so
up + down ≤ total; `overall_uptime` is the arithmetic mean of
`uptime_percentage` over all monitors, and 0 with no monitors. -/
theorem c10_dashboard_stats (ms : List Monitor) :
    (get_dashboard_stats ms).monitors_up =
      ms.countP (fun m => m.status == .up) ∧
    (get_dashboard_stats ms).monitors_down =
      ms.countP (fun m => m.status == .down) ∧
    (get_dashboard_stats ms).monitors_up +
        (get_dashboard_stats ms).monitors_down +
        ms.countP (fun m => m.status == .warning || m.status == .unknown) =
      (get_dashboard_stats ms).total_monitors ∧
    (get_dashboard_stats ms).monitors_up +
        (get_dashboard_stats ms).monitors_down ≤
      (get_dashboard_stats ms).total_monitors ∧
    (ms ≠ [] →
      (get_dashboard_stats ms).overall_uptime * (ms.length : ℚ) =
        (ms.map (fun m => m.uptime_percentage)).sum) ∧
    (ms = [] → (get_dashboard_stats ms).overall_uptime = 0) := by
  have hpart := monitor_status_partition ms
  refine ⟨rfl, rfl, ?_, ?_, ?_, ?_⟩
  · simpa [get_dashboard_stats] using hpart
  · simp only [get_dashboard_stats]
    omega
  · intro h
    have hlen : 0 < ms.length := List.length_pos.mpr h
    have hq : ((ms.length : ℚ)) ≠ 0 := by
      exact_mod_cast Nat.pos_iff_ne_zero.mp hlen
    simp only [get_dashboard_stats, hlen, if_pos]
    exact div_mul_cancel₀ _ hq
  · intro h
    subst h
    simp [get_dashboard_stats]

/-- A second sample monitor, in warning status with uptime 50. -/
def warnMonitor : Monitor :=
  { id := "m2", name := "cert", monitor_type := .ssl, check_interval := 300,
    timeout := 10, status := .warning, last_checked := none,
    response_time := none, uptime_percentage := 50, created_at := 0 }

/-- C10 witness: the theorem applied to a two-monitor list (one up, one
warning): the warning monitor is in neither count and the mean is over both
monitors. -/
theorem c10_witness :
    (get_dashboard_stats [sampleMonitor, warnMonitor]).monitors_up = 1 ∧
    (get_dashboard_stats [sampleMonitor, warnMonitor]).monitors_down = 0 ∧
    (get_dashboard_stats [sampleMonitor, warnMonitor]).overall_uptime *
        (([sampleMonitor, warnMonitor] : List Monitor).length : ℚ) =
      (([sampleMonitor, warnMonitor] : List Monitor).map
        (fun m => m.uptime_percentage)).sum := by
  have h := c10_dashboard_stats [sampleMonitor, warnMonitor]
  exact ⟨by rw [h.1]; decide, by rw [h.2.1]; decide,
    h.2.2.2.2.1 (by decide)⟩

end UptimeGuard
